import Mathlib

/-
Verification development for the crt-hud slide lifecycle engine.

The definitions below are a shallow embedding of the Python sources:

  src/backend/collectors/base.py   (BaseCollector: get_data, clear_cache)
  src/backend/slides/registry.py   (SlideTypeRegistry.get)
  src/backend/slides/*.py          (the should_display policy of each slide type)
  src/app.py                       (HomelabHUD._run_display_loop)

Conventions of the embedding:
  - A Python dict payload is modelled as an association list from string keys
    to integers.  Python booleans are a subclass of int (True == 1), and the
    only payload fields the in-scope predicates consult are integers or
    booleans ("session_count", "is_printing"), so integer values suffice.
  - A raised Python exception is modelled with Except: Except.error e is a
    raise, Except.ok v a normal return (v = Option.none models Python None).
  - Mutable object state is threaded explicitly: a method of BaseCollector
    becomes a function from CollectorState to CollectorState.
  - Wall-clock time is passed explicitly as a natural number of seconds; the
    hold loop of the scheduler accumulates elapsed time exactly as the
    source does, in IEEE binary64 arithmetic: every double arising there is
    an exact multiple of 2 ^ -56, so doubles are represented as integers
    scaled by 2 ^ 56 and each addition or subtraction is the exact result
    rounded to nearest-even at 53-bit precision.
-/

namespace CrtHud

/-- A Python dict payload, restricted to the integer-valued (or boolean,
as 0/1) fields the in-scope predicates read. -/
abbrev Payload := List (String × Int)

/-- Python dict truthiness: a dict is truthy iff it is non-empty. -/
def dictTruthy (d : Payload) : Bool := !d.isEmpty

/-- Python dict.get with an integer default. -/
def dictGet (d : Payload) (key : String) (dflt : Int) : Int :=
  match d.find? (fun p => p.1 == key) with
  | some p => p.2
  | none => dflt

/-- Result of one call to the abstract _fetch_data of a collector:
Except.ok v models a normal return (v = none is a Python None return),
Except.error e models a raised exception with message e. -/
abbrev FetchResult := Except String (Option Payload)

/-- The mutable state of a BaseCollector
(src/backend/collectors/base.py, lines 21-28): the enabled flag, the cached
payload, the cache timestamp, and the last-error string.  The lock only
serializes access and carries no state, so it is not modelled. -/
structure CollectorState where
  enabled : Bool := true
  cache : Option Payload := none
  cacheTime : Option Nat := none
  lastError : Option String := none
deriving Repr, DecidableEq

/-- Cache TTL in seconds (base.py line 26: self._cache_ttl = 5). -/
def cacheTtl : Nat := 5

/-- The cache-freshness test of BaseCollector.get_data (base.py lines 42-45):
the cache is served only when BOTH the cached payload and its timestamp are
present (in particular a stored None payload never hits) and the age is
strictly below the TTL. -/
def cacheHit (s : CollectorState) (now : Nat) : Bool :=
  match s.cache, s.cacheTime with
  | some _, some t => now - t < cacheTtl
  | _, _ => false

/-- Result of one BaseCollector.get_data call: the returned payload, the
collector state after the call, and whether _fetch_data was invoked. -/
structure GetDataResult where
  ret : Option Payload
  state : CollectorState
  fetched : Bool
deriving Repr, DecidableEq

/-- BaseCollector.get_data (base.py lines 30-63), with the time of the call
and the outcome of the underlying _fetch_data passed explicitly.
On a disabled collector it returns None without fetching; on a fresh cache it
returns the cached payload without fetching; otherwise it fetches: a normal
fetch return (even None) is stored in the cache with the current timestamp
and returned, and last-error is cleared only when the value is not None
(line 54: if data is not None); a raising fetch records the error and falls
back to the cached dict if that dict is truthy (line 63: the Python
expression tests dict truthiness, so an empty cached dict yields None). -/
def get_data (s : CollectorState) (now : Nat) (fetch : FetchResult) :
    GetDataResult :=
  if !s.enabled then ⟨none, s, false⟩
  else if cacheHit s now then ⟨s.cache, s, false⟩
  else
    match fetch with
    | .ok d =>
        ⟨d, { s with cache := d
                     cacheTime := some now
                     lastError := if d.isSome then none else s.lastError },
         true⟩
    | .error e =>
        ⟨(match s.cache with
          | some c => if dictTruthy c then some c else none
          | none => none),
         { s with lastError := some e }, true⟩

/-- BaseCollector.clear_cache (base.py lines 75-79): clears both the cached
payload and its timestamp. -/
def clear_cache (s : CollectorState) : CollectorState :=
  { s with cache := none, cacheTime := none }

/-- A slide configuration dict (SlideConfig), with the keys the in-scope
code reads.  Keys a Python dict may lack are Option, and each read site
applies the default of its own dict.get call.  hasServiceConfig models the
truthiness of slide.get of service_config or api_config (app.py line 284);
widgets models the length of the widgets list (custom_slide.py line 123). -/
structure Slide where
  id : Nat
  type : String
  title : String := ""
  order : Option Int := none
  duration : Option Nat := none
  refresh_duration : Option Nat := none
  conditional : Option Bool := none
  hasServiceConfig : Bool := false
  text : Option String := none
  image_path : Option String := none
  widgets : Nat := 0
deriving Repr, DecidableEq

/-- A slide-type descriptor as the scheduler consumes it: only the
should_display policy is in scope (rendering and collector construction are
external collaborators and are modelled in SlideIO below). -/
structure SlideType where
  should_display : Option CollectorState → Option Payload → Slide → Bool

/-- WeatherSlideType.should_display (weather_slide.py lines 63-67):
collector is not None and data is not None; the conditional flag of the
slide config is never consulted. -/
def weatherSlideType : SlideType :=
  ⟨fun collector data _ => collector.isSome && data.isSome⟩

/-- PiHoleSlideType.should_display (pihole_slide.py lines 79-83): identical
to the weather policy; the conditional flag is never consulted. -/
def piholeSlideType : SlideType :=
  ⟨fun collector data _ => collector.isSome && data.isSome⟩

/-- SystemSlideType.should_display (system_slide.py lines 71-75): identical
to the weather policy. -/
def systemSlideType : SlideType :=
  ⟨fun collector data _ => collector.isSome && data.isSome⟩

/-- PlexSlideType.should_display (plex_slide.py lines 79-91): true when the
conditional flag (dict default True) is off; otherwise requires non-None
data with session_count greater than zero. -/
def plexSlideType : SlideType :=
  ⟨fun _ data s =>
    if !(s.conditional.getD true) then true
    else
      match data with
      | none => false
      | some d => decide (dictGet d "session_count" 0 > 0)⟩

/-- ARMSlideType.should_display (arm_slide.py lines 89-98): true when the
conditional flag (dict default True) is off; otherwise requires non-None
data. -/
def armSlideType : SlideType :=
  ⟨fun _ data s =>
    if !(s.conditional.getD true) then true else data.isSome⟩

/-- OctoPiSlideType.should_display (octopi_slide.py lines 79-91): true when
the conditional flag (dict default True) is off; otherwise requires non-None
data whose is_printing field is truthy (Python bool is an int; truthy means
non-zero). -/
def octopiSlideType : SlideType :=
  ⟨fun _ data s =>
    if !(s.conditional.getD true) then true
    else
      match data with
      | none => false
      | some d => decide (dictGet d "is_printing" 0 ≠ 0)⟩

/-- ImageSlideType.should_display (image_slide.py lines 36-40): the Python
truthiness of slide_config.get of image_path (absent or empty string is
falsy). -/
def imageSlideType : SlideType :=
  ⟨fun _ _ s =>
    match s.image_path with
    | some p => !p.isEmpty
    | none => false⟩

/-- StaticTextSlideType.should_display (static_text_slide.py lines 92-96):
the Python truthiness of slide_config.get of text. -/
def staticTextSlideType : SlideType :=
  ⟨fun _ _ s =>
    match s.text with
    | some t => !t.isEmpty
    | none => false⟩

/-- CustomSlideType.should_display (custom_slide.py lines 119-124): the
widgets list of the slide config is non-empty. -/
def customSlideType : SlideType :=
  ⟨fun _ _ s => decide (s.widgets > 0)⟩

/-- ClockSlideType.should_display (clock_slide.py lines 106-110): always
true. -/
def clockSlideType : SlideType :=
  ⟨fun _ _ _ => true⟩

/-- The slide-type registry contents, in the registration order of
src/backend/slides/init.py. -/
def registryTypes : List (String × SlideType) :=
  [("pihole_summary", piholeSlideType),
   ("plex_now_playing", plexSlideType),
   ("arm_rip_progress", armSlideType),
   ("system_stats", systemSlideType),
   ("weather", weatherSlideType),
   ("image", imageSlideType),
   ("static_text", staticTextSlideType),
   ("custom", customSlideType),
   ("clock", clockSlideType)]

/-- SlideTypeRegistry.get (registry.py lines 18-23): if the name is not a
registered key, return None (no exception); otherwise the descriptor
registered under the name. -/
def registryGet (name : String) : Option SlideType :=
  if (registryTypes.map Prod.fst).contains name then
    (registryTypes.find? (fun p => p.1 == name)).map Prod.snd
  else none

/-- Observable actions of one display-loop pass.  publishedNone is the
conditional-skip publication CurrentSlide = None (app.py lines 309-310);
published is the wholesale replacement of the CurrentSlide record together
with the output frame (lines 353-374); held records the hold period entered
after the initial display (lines 378-454); skippedUnknown is the logged
warning of lines 277-279; renderFailed the logged render error of lines
345-349; passError the pass-level logged exception of lines 458-462. -/
inductive Event where
  | skippedUnknown (typeName : String)
  | publishedNone (slideId : Nat)
  | renderFailed (slideId : Nat)
  | published (slideId : Nat) (data : Option Payload)
  | held (slideId : Nat) (seconds : Nat)
  | passError (msg : String)
deriving Repr, DecidableEq

/-- The scheduler state the claims observe: the shared CurrentSlide record,
reduced to the slide id and data of the published record (None models the
Python None record). -/
structure SchedState where
  currentSlide : Option (Nat × Option Payload) := none
deriving Repr, DecidableEq

/-- Outcomes of the external calls made while processing one slide.
createCollector is the result of slide_type.create_collector (its raise is
caught at app.py lines 285-292, leaving the collector None); fetch1 and
fetch2 are the successive fetch outcomes fed to the collector's get_data
(the conditional-check fetch of lines 296-304 and the initial-data fetch of
lines 331-340); renderOk is whether slide_type.render returns normally (its
raise is caught at lines 343-349); displayFrame is the video_output
display_frame call of line 373, which is NOT inside any try block: an error
here escapes the slide body.  create_collector is a pure constructor, so
the model reuses one outcome for both call sites of lines 290 and 325. -/
structure SlideIO where
  createCollector : Except String (Option CollectorState) := .ok none
  fetch1 : FetchResult := .ok none
  fetch2 : FetchResult := .ok none
  renderOk : Bool := true
  displayFrame : Except String Bool := .ok true

/-- Result of processing one slide of a pass: either the body completed
(state and events), or an exception escaped the per-slide code to the
pass-level handler. -/
inductive StepResult where
  | ok (st : SchedState) (evs : List Event)
  | raised (st : SchedState) (evs : List Event) (msg : String)
deriving Repr, DecidableEq

/-- The per-slide body of HomelabHUD._run_display_loop (app.py lines
269-376), one slide of the for loop: resolve the slide type (unknown types
are skipped with a warning, lines 274-279, touching nothing); build the
temporary collector and fetch data for the conditional check (lines
282-304, both failure-isolated); evaluate should_display and on false
publish CurrentSlide = None and continue (lines 307-311); otherwise reuse
or build the collector and the initial data (lines 317-340), render (lines
343-349, a raise skips to the next slide leaving the state untouched),
publish the CurrentSlide record (lines 351-361), and display the frame
(lines 363-374, outside any try) before entering the hold period of
duration seconds (dict default 10).  The hold period's refresh cadence is
modelled separately by refreshTimes. -/
def processSlide (io : SlideIO) (now : Nat) (st : SchedState) (s : Slide) :
    StepResult :=
  match registryGet s.type with
  | none => .ok st [.skippedUnknown s.type]
  | some ty =>
    let tempCollector0 : Option CollectorState :=
      if s.hasServiceConfig then
        match io.createCollector with
        | .ok c => c
        | .error _ => none
      else none
    let tempFetch : Option GetDataResult :=
      tempCollector0.map (fun c => get_data c now io.fetch1)
    let tempData : Option Payload :=
      match tempFetch with
      | some r => r.ret
      | none => none
    let tempCollector : Option CollectorState :=
      match tempFetch with
      | some r => some r.state
      | none => none
    if !(ty.should_display tempCollector tempData s) then
      .ok { st with currentSlide := none } [.publishedNone s.id]
    else
      let collector : Option CollectorState :=
        match tempCollector with
        | some c => some c
        | none =>
          if s.hasServiceConfig then
            match io.createCollector with
            | .ok c => c
            | .error _ => none
          else none
      let data : Option Payload :=
        match tempData with
        | some d => some d
        | none =>
          match collector with
          | some c => (get_data c now io.fetch2).ret
          | none => none
      if !io.renderOk then .ok st [.renderFailed s.id]
      else
        let st1 := { st with currentSlide := some (s.id, data) }
        match io.displayFrame with
        | .error e => .raised st1 [.published s.id data] e
        | .ok _ => .ok st1 [.published s.id data, .held s.id (s.duration.getD 10)]

/-- The for loop over the sorted slides of one pass (app.py lines 269-454):
slides are processed in order, accumulating events; the first exception that
escapes a slide body aborts the remaining slides of the pass and is reported
as the third component (the loop-level stop flag and the weather city branch
are elided; io gives each slide its external-call outcomes). -/
def runPass (io : Slide → SlideIO) (now : Nat) :
    SchedState → List Slide → SchedState × List Event × Option String
  | st, [] => (st, [], none)
  | st, s :: rest =>
    match processSlide (io s) now st s with
    | .ok st1 evs =>
      match runPass io now st1 rest with
      | (st2, evs2, err) => (st2, evs ++ evs2, err)
    | .raised st1 evs e => (st1, evs, some e)

/-- The comparator of the slide sort (app.py line 258): sorted with key
x.get of order with default 0. -/
def slideOrderLe (a b : Slide) : Prop :=
  a.order.getD 0 ≤ b.order.getD 0

instance : DecidableRel slideOrderLe :=
  fun a b => inferInstanceAs (Decidable (a.order.getD 0 ≤ b.order.getD 0))

instance : IsTotal Slide slideOrderLe :=
  ⟨fun a b => Int.le_total (a.order.getD 0) (b.order.getD 0)⟩

instance : IsTrans Slide slideOrderLe :=
  ⟨fun _ _ _ h1 h2 => Int.le_trans h1 h2⟩

/-- The slide-list sort at the top of every pass (app.py line 258).
Python's sorted is a stable sort under the key comparator; any stable sort
computes the same list, and the model uses insertion sort (whose
stability is proved below). -/
def sortSlides (slides : List Slide) : List Slide :=
  slides.insertionSort slideOrderLe

/-- One iteration of the display loop's while body (app.py lines 254-462):
reload and sort the slide list, run the pass, and catch any exception that
escaped a slide body at the pass level (lines 458-462: logged, 1-second
backoff, and the while loop continues with a fresh pass). -/
def loopBody (io : Slide → SlideIO) (now : Nat) (slides : List Slide)
    (st : SchedState) : SchedState × List Event :=
  match runPass io now st (sortSlides slides) with
  | (st1, evs, none) => (st1, evs)
  | (st1, evs, some e) => (st1, evs ++ [.passError e])

/-- The display loop run for a given number of passes, collecting each
pass's events: the while loop of app.py line 254, whose body never lets a
pass exception escape, so every pass executes. -/
def passTrace (io : Slide → SlideIO) (now : Nat) (slides : List Slide) :
    Nat → SchedState → List (List Event)
  | 0, _ => []
  | n + 1, st =>
    (loopBody io now slides st).2 ::
      passTrace io now slides n (loopBody io now slides st).1

/-- Bit length of a natural number (one more than the index of its most
significant bit; 0 for 0), with a structural fuel of 64 bits, enough for
every value of the hold-loop emulation (all below 2 ^ 61). -/
def bitLenGo : Nat → Nat → Nat
  | 0, _ => 0
  | fuel + 1, n => if n = 0 then 0 else bitLenGo fuel (n / 2) + 1

/-- Bit length for values below 2 ^ 64. -/
def bitLen (n : Nat) : Nat := bitLenGo 64 n

/-- IEEE binary64 round-to-nearest-even of a non-negative value held as an
exact integer at a fixed power-of-two scale: a value of at most 53
significant bits is representable and kept exact; a longer one is rounded
to the nearest multiple of its binade's ulp, ties to the even multiple.
The scale below is 2 ^ -56, fine enough for every binade the hold loop
touches (all its values are 0 or lie in the interval from 0.09 to 10.2). -/
def roundMag (n : Nat) : Nat :=
  let b := bitLen n
  if b ≤ 53 then n
  else
    let g := 2 ^ (b - 53)
    let q := n / g
    let r := n % g
    if r < g / 2 then q * g
    else if g / 2 < r then (q + 1) * g
    else if q % 2 = 0 then q * g
    else (q + 1) * g

/-- IEEE binary64 rounding of a signed scaled value. -/
def roundToDouble (n : Int) : Int :=
  if n < 0 then -(roundMag n.natAbs : Int) else (roundMag n.natAbs : Int)

/-- IEEE binary64 addition on scaled doubles: the sum, exact at this scale,
rounded to the representable grid. -/
def addDouble (a b : Int) : Int := roundToDouble (a + b)

/-- IEEE binary64 subtraction on scaled doubles. -/
def subDouble (a b : Int) : Int := roundToDouble (a - b)

/-- The scale of the double representation: doubles are exact multiples of
2 ^ -56 here, stored as the integer multiplier. -/
def floatScale : Int := 2 ^ 56

/-- The binary64 value of the literal 0.1 — the sleep_interval of app.py
line 379 — at the 2 ^ 56 scale: 7205759403792794 / 2 ^ 56 =
0.1000000000000000055511151231257827021181583404541015625, the nearest
double to one tenth. -/
def floatTick : Int := 7205759403792794

/-- Result of one hold period under binary64 arithmetic: the refreshes
fired as pairs of the tick index and the elapsed double (scaled) at the
fire, the total ticks executed, and whether the loop exited through its own
elapsed-below-duration test (false only if the iteration bound ran out). -/
structure FloatHoldResult where
  fires : List (Nat × Int)
  ticks : Nat
  finished : Bool
deriving Repr, DecidableEq

/-- The hold loop of app.py lines 379-454 with the arithmetic of the
source: elapsed starts at the integer 0 and accumulates elapsed += 0.1 in
binary64 (line 387); the refresh test elapsed - last_refresh >=
refresh_duration (line 390) subtracts in binary64 and compares exactly
against the integer refresh_duration; a fire records the tick and sets
last_refresh = elapsed (line 448); the loop runs while elapsed <
display_duration, an exact float-to-integer comparison (line 385).
Duration and refresh thresholds arrive pre-scaled by 2 ^ 56. -/
def floatHoldGo (durScaled refreshScaled : Int) :
    Nat → Nat → Int → Int → FloatHoldResult
  | 0, tick, _, _ => ⟨[], tick, false⟩
  | fuel + 1, tick, elapsed, lastRefresh =>
    if elapsed < durScaled then
      let e := addDouble elapsed floatTick
      if subDouble e lastRefresh ≥ refreshScaled then
        let r := floatHoldGo durScaled refreshScaled fuel (tick + 1) e e
        ⟨(tick + 1, e) :: r.fires, r.ticks, r.finished⟩
      else floatHoldGo durScaled refreshScaled fuel (tick + 1) e lastRefresh
    else ⟨[], tick, true⟩

/-- One hold period for integer duration and refresh_duration seconds (the
Python config ints, compared exactly against floats), from elapsed = 0 and
last_refresh = 0, with the given iteration bound. -/
def floatHold (durationS refreshS : Nat) (fuel : Nat) : FloatHoldResult :=
  floatHoldGo ((durationS : Int) * floatScale) ((refreshS : Int) * floatScale)
    fuel 0 0 0

end CrtHud

namespace CrtHud

/-- Claim C1, as stated, evaluated on the code: starting from a fresh enabled
collector, fetch number 1 succeeds returning the payload x = 1 and is
returned; clear_cache is called; fetch number 2 raises.  The subsequent
get_data returns None, NOT the previously fetched payload: clear_cache wiped
both the cache and its timestamp, so the stale-on-error fallback of get_data
has nothing to return.  This refutes C1 at a concrete input. -/
theorem c1_stale_after_clear_counterexample :
    (get_data {} 0 (.ok (some [("x", 1)]))).ret = some [("x", 1)] ∧
    (get_data (clear_cache (get_data {} 0 (.ok (some [("x", 1)]))).state) 1
        (.error "boom")).ret = none ∧
    (get_data (clear_cache (get_data {} 0 (.ok (some [("x", 1)]))).state) 1
        (.error "boom")).ret ≠ some [("x", 1)] := by
  refine ⟨rfl, rfl, ?_⟩
  simp [get_data, clear_cache, cacheHit]

/-- Claim C1 amended: the previously cached payload is returned on a failing
fetch only when the cache has NOT been cleared (and the cached dict is
non-empty): for every enabled collector state whose cache holds a non-empty
payload, a get_data call whose fetch raises returns that payload and does
not raise.  After clear_cache the cache is gone and the same call returns
None. -/
theorem c1_stale_on_error_requires_uncleared_cache
    (s : CollectorState) (now : Nat) (e : String) (c : Payload)
    (hen : s.enabled = true) (hc : s.cache = some c)
    (hne : c ≠ []) :
    (get_data s now (.error e)).ret = some c ∧
    (get_data (clear_cache s) now (.error e)).ret = none := by
  constructor
  · unfold get_data
    rw [hen]
    by_cases hhit : cacheHit s now
    · simp [hhit, hc]
    · simp [hhit, hc, dictTruthy, hne]
  · simp [get_data, clear_cache, cacheHit, hen]

/-- Witness for the amended C1 theorem at a concrete state. -/
theorem c1_stale_on_error_requires_uncleared_cache_witness :
    (get_data { cache := some [("x", 1)], cacheTime := some 0 } 7
        (.error "down")).ret = some [("x", 1)] ∧
    (get_data (clear_cache { cache := some [("x", 1)], cacheTime := some 0 }) 7
        (.error "down")).ret = none :=
  c1_stale_on_error_requires_uncleared_cache
    { cache := some [("x", 1)], cacheTime := some 0 } 7 "down" [("x", 1)]
    rfl rfl (by decide)

/-- Claim C4, as stated, evaluated on the code: a first get_data whose fetch
succeeds returning None stores None in the cache, but the freshness check of
get_data requires the cached payload to be non-None, so a second call one
second later fetches AGAIN: two fetches in total, refuting the at-most-once
part of C4 for the cached-None case. -/
theorem c4_cached_none_refetches_counterexample :
    (get_data {} 0 (.ok none)).fetched = true ∧
    (get_data (get_data {} 0 (.ok none)).state 1 (.ok none)).fetched = true := by
  constructor <;> rfl

/-- Claim C4 amended: for an enabled collector, when the first fetch returns
a NON-None payload, two get_data calls less than the 5-second TTL apart with
no clear_cache between them invoke _fetch_data at most once in total (a
cached None, by contrast, is never served from cache and the next call
fetches again). -/
theorem c4_ttl_caches_non_none
    (s : CollectorState) (t0 t1 : Nat) (d : Payload) (f2 : FetchResult)
    (hen : s.enabled = true) (h5 : t1 - t0 < 5) :
    (get_data s t0 (.ok (some d))).fetched.toNat +
      (get_data (get_data s t0 (.ok (some d))).state t1 f2).fetched.toNat
      ≤ 1 := by
  by_cases hhit : cacheHit s t0
  · have h1 : (get_data s t0 (.ok (some d))) = ⟨s.cache, s, false⟩ := by
      simp [get_data, hen, hhit]
    rw [h1]
    cases hf : (get_data s t1 f2).fetched <;> simp
  · have h1 : (get_data s t0 (.ok (some d))) =
        ⟨some d,
         { s with cache := some d
                  cacheTime := some t0
                  lastError := none },
         true⟩ := by
      simp [get_data, hen, hhit]
    rw [h1]
    simp [get_data, hen, cacheHit, cacheTtl, h5]

/-- Witness for the amended C4 theorem at a concrete state. -/
theorem c4_ttl_caches_non_none_witness :
    (get_data {} 0 (.ok (some [("x", 1)]))).fetched.toNat +
      (get_data (get_data {} 0 (.ok (some [("x", 1)]))).state 3
        (.ok none)).fetched.toNat ≤ 1 :=
  c4_ttl_caches_non_none {} 0 3 [("x", 1)] (.ok none) rfl (by decide)

/-- Claim C7, as stated, evaluated on the code: a get_data whose fetch
completes normally returning None updates the cache and timestamp and
returns None, but does NOT clear the last-error state: line 54 of base.py
clears it only when the fetched value is not None.  This refutes the
clears-last-error-on-every-successful-fetch part of C7 at a concrete
input. -/
theorem c7_none_fetch_keeps_last_error_counterexample :
    (get_data { lastError := some "old" } 0 (.ok none)).state.lastError
      = some "old" ∧
    (get_data { lastError := some "old" } 0 (.ok none)).state.lastError
      ≠ none := by
  constructor
  · rfl
  · simp [get_data, cacheHit]

/-- Claim C7 amended: for every enabled collector on the fetch path (no cache
hit), a fetch that completes without raising updates the cache to the new
value (even None) and the timestamp to the call time, and returns the new
value; the last-error state is cleared only when the new value is non-None,
and is left unchanged when the fetch returned None. -/
theorem c7_success_updates_cache_clears_error_iff_some
    (s : CollectorState) (now : Nat) (d : Option Payload)
    (hen : s.enabled = true) (hmiss : cacheHit s now = false) :
    (get_data s now (.ok d)).ret = d ∧
    (get_data s now (.ok d)).state.cache = d ∧
    (get_data s now (.ok d)).state.cacheTime = some now ∧
    (get_data s now (.ok d)).state.lastError
      = (if d.isSome then none else s.lastError) := by
  simp [get_data, hen, hmiss]

/-- Witness for the amended C7 theorem at a concrete state: a successful
non-None fetch updates cache, timestamp, and clears the prior error. -/
theorem c7_success_updates_cache_clears_error_iff_some_witness :
    (get_data { lastError := some "old" } 2 (.ok (some [("x", 1)]))).ret
      = some [("x", 1)] ∧
    (get_data { lastError := some "old" } 2 (.ok (some [("x", 1)]))).state.cache
      = some [("x", 1)] ∧
    (get_data { lastError := some "old" } 2
        (.ok (some [("x", 1)]))).state.cacheTime = some 2 ∧
    (get_data { lastError := some "old" } 2
        (.ok (some [("x", 1)]))).state.lastError
      = (if (some [("x", 1)] : Option Payload).isSome then none
         else some "old") :=
  c7_success_updates_cache_clears_error_iff_some
    { lastError := some "old" } 2 (some [("x", 1)]) rfl rfl

/-- Claim C2, as stated, evaluated on the code: two clock slides; processing
slide 1 raises at the display_frame call (which sits outside every
per-slide try block).  The exception is caught and logged at the PASS level
(app.py lines 458-462), not at the slide level: the pass's event list ends
with the logged pass error and contains no event for slide 2, so the
scheduler does NOT continue with the next slide of the same pass (it starts
a fresh pass, as the two-pass trace shows).  This refutes the
continues-with-next-slide-of-same-pass part of C2 at a concrete input. -/
theorem c2_exception_abandons_pass_counterexample :
    loopBody (fun s => if s.id = 1 then { displayFrame := .error "boom" } else {})
        0 [{ id := 1, type := "clock" }, { id := 2, type := "clock" }] {} =
      ({ currentSlide := some (1, none) },
       [.published 1 none, .passError "boom"]) ∧
    Event.published 2 none ∉
      (loopBody (fun s => if s.id = 1 then { displayFrame := .error "boom" } else {})
        0 [{ id := 1, type := "clock" }, { id := 2, type := "clock" }] {}).2 ∧
    passTrace (fun s => if s.id = 1 then { displayFrame := .error "boom" } else {})
        0 [{ id := 1, type := "clock" }, { id := 2, type := "clock" }] 2 {} =
      [[.published 1 none, .passError "boom"],
       [.published 1 none, .passError "boom"]] := by
  decide

/-- Claim C2 amended: an unhandled exception escaping one slide's processing
(the per-slide code catches only collector-creation, fetch and render
errors) is caught by the PASS-level handler: the pass is aborted at that
slide (the remaining slides of the pass are not processed and the pass
result carries the error), the error is logged with a 1-second backoff, and
the while loop then starts a fresh pass, so the display loop itself never
terminates because of the exception: a run of n passes always executes all
n passes. -/
theorem c2_pass_level_catch_restarts_pass
    (io : Slide → SlideIO) (now : Nat) (st st0 : SchedState) (s : Slide)
    (rest : List Slide) (evs0 : List Event) (e : String)
    (h : processSlide (io s) now st s = .raised st0 evs0 e) :
    runPass io now st (s :: rest) = (st0, evs0, some e) ∧
    ∀ (slides : List Slide) (n : Nat) (st1 : SchedState),
      (passTrace io now slides n st1).length = n := by
  constructor
  · simp [runPass, h]
  · intro slides n
    induction n with
    | zero => intro st1; rfl
    | succ k ih => intro st1; simp [passTrace, ih]

/-- Witness for the amended C2 theorem: a concrete raising slide aborts the
rest of its pass, and every pass of a two-pass run still executes. -/
theorem c2_pass_level_catch_restarts_pass_witness :
    runPass (fun _ => { displayFrame := .error "x" }) 0 {}
        [{ id := 1, type := "clock" }, { id := 2, type := "clock" }] =
      ({ currentSlide := some (1, none) }, [.published 1 none], some "x") ∧
    ∀ (slides : List Slide) (n : Nat) (st1 : SchedState),
      (passTrace (fun _ => ({ displayFrame := .error "x" } : SlideIO)) 0 slides
        n st1).length = n :=
  c2_pass_level_catch_restarts_pass (fun _ => { displayFrame := .error "x" })
    0 {} { currentSlide := some (1, none) } { id := 1, type := "clock" }
    [{ id := 2, type := "clock" }] [.published 1 none] "x" (by decide)

/-- Claim C3, as stated, evaluated on the code: the weather and pihole
should_display implementations never consult the conditional flag; with
conditional = false and data = None they return false, not true, so a
non-conditional weather or pihole slide with no data is hidden rather than
rendered with a placeholder.  This refutes C3 at a concrete input. -/
theorem c3_nonconditional_weather_pihole_hide_counterexample :
    weatherSlideType.should_display none none
        { id := 1, type := "weather", conditional := some false } = false ∧
    piholeSlideType.should_display none none
        { id := 2, type := "pihole_summary", conditional := some false }
      = false := by
  decide

/-- Claim C3 amended: only the conditional-aware slide types consult the
conditional flag: with conditional = false, plex, arm and octopi (and
clock, trivially) return true regardless of collector and data, and the
scheduler then invokes the renderer for such a slide even with None data;
but weather, pihole and system return true exactly when a collector exists
and data is non-None, regardless of the conditional flag. -/
theorem c3_conditional_optout_only_for_conditional_types
    (c : Option CollectorState) (d : Option Payload) (s : Slide)
    (now : Nat) (st : SchedState)
    (h : s.conditional = some false) :
    plexSlideType.should_display c d s = true ∧
    armSlideType.should_display c d s = true ∧
    octopiSlideType.should_display c d s = true ∧
    clockSlideType.should_display c d s = true ∧
    weatherSlideType.should_display c d s = (c.isSome && d.isSome) ∧
    piholeSlideType.should_display c d s = (c.isSome && d.isSome) ∧
    systemSlideType.should_display c d s = (c.isSome && d.isSome) ∧
    (s.type = "plex_now_playing" → s.hasServiceConfig = false →
      processSlide {} now st s =
        .ok { st with currentSlide := some (s.id, none) }
          [.published s.id none, .held s.id (s.duration.getD 10)]) := by
  refine ⟨?_, ?_, ?_, rfl, rfl, rfl, rfl, ?_⟩
  · simp [plexSlideType, h]
  · simp [armSlideType, h]
  · simp [octopiSlideType, h]
  · intro hty hsvc
    have hreg : registryGet s.type = some plexSlideType := by rw [hty]; rfl
    simp [processSlide, hreg, hsvc, plexSlideType, h]

/-- Witness for the amended C3 theorem at a concrete non-conditional plex
slide with no collector and None data: should_display is true and the
scheduler renders and publishes it. -/
theorem c3_conditional_optout_only_for_conditional_types_witness :
    plexSlideType.should_display none none
        { id := 7, type := "plex_now_playing", conditional := some false }
      = true ∧
    processSlide {} 0 {}
        { id := 7, type := "plex_now_playing", conditional := some false } =
      .ok { currentSlide := some (7, none) }
        [.published 7 none, .held 7 10] :=
  ⟨(c3_conditional_optout_only_for_conditional_types none none
      { id := 7, type := "plex_now_playing", conditional := some false }
      0 {} rfl).1,
   (c3_conditional_optout_only_for_conditional_types none none
      { id := 7, type := "plex_now_playing", conditional := some false }
      0 {} rfl).2.2.2.2.2.2.2 rfl rfl⟩

/-- Claim C5, evaluated on the code with the source's own IEEE binary64
arithmetic for duration = 10 and refresh_duration = 3: the hold loop runs
101 ticks (after 100 additions of 0.1 elapsed is 9.99999999999998, still
below 10) and fires exactly 3 refreshes, but at ticks 30, 61 and 92 —
elapsed 3.0000000000000013, 6.0999999999999994 and 9.1999999999999983
seconds (the listed integers divided by 2 ^ 56) — so the offsets drift by
one extra tick per refresh, the third fire misses 9.0 s by two ticks
(outside the claim's one-tick tolerance), and the last_refresh checkpoint
advances by about 3.1 s each time, strictly more than refresh_duration,
never by exactly it.  The code thus violates the claim; the spec's design
notes flag this very loop as a source inaccuracy against the intended
drift-free checkpoint, so the claim states the intent and the code is the
slip. -/
theorem c5_refresh_drift_under_float_accumulation :
    (floatHold 10 3 200).fires.map Prod.fst = [30, 61, 92] ∧
    (floatHold 10 3 200).fires.map Prod.snd =
      [216172782113783904, 439551323631360000, 662929865148935808] ∧
    (floatHold 10 3 200).ticks = 101 ∧
    (floatHold 10 3 200).finished = true ∧
    3 * floatScale < 439551323631360000 - 216172782113783904 ∧
    3 * floatScale < 662929865148935808 - 439551323631360000 := by
  decide

/-- Claim C6: a conditional slide (one of the conditional-aware types with
its conditional flag on, here by the dict default or explicitly) whose
freshly created collector fetches None fails should_display, so the
scheduler publishes CurrentSlide = None for it, emits no render or publish
of the slide and enters no hold period before moving on. -/
theorem c6_conditional_none_data_publishes_none
    (io : SlideIO) (now : Nat) (st : SchedState) (s : Slide)
    (c : CollectorState)
    (htype : s.type = "plex_now_playing" ∨ s.type = "arm_rip_progress")
    (hcond : s.conditional.getD true = true)
    (hsvc : s.hasServiceConfig = true)
    (hcreate : io.createCollector = .ok (some c))
    (hcache : c.cache = none)
    (hfetch : io.fetch1 = .ok none) :
    processSlide io now st s =
      .ok { st with currentSlide := none } [.publishedNone s.id] := by
  have hret : (get_data c now (.ok none)).ret = none := by
    unfold get_data
    cases hce : c.enabled <;> simp [hce, cacheHit, hcache]
  rcases htype with h | h
  · have hreg : registryGet s.type = some plexSlideType := by rw [h]; rfl
    simp [processSlide, hreg, hsvc, hcreate, hfetch, hret, plexSlideType, hcond]
  · have hreg : registryGet s.type = some armSlideType := by rw [h]; rfl
    simp [processSlide, hreg, hsvc, hcreate, hfetch, hret, armSlideType, hcond]

/-- Witness for the C6 theorem: a concrete conditional plex slide whose
collector fetches None is skipped with CurrentSlide published as None. -/
theorem c6_conditional_none_data_publishes_none_witness :
    processSlide { createCollector := .ok (some {}) } 0
        { currentSlide := some (9, none) }
        { id := 4, type := "plex_now_playing", hasServiceConfig := true } =
      .ok { currentSlide := none } [.publishedNone 4] :=
  c6_conditional_none_data_publishes_none
    { createCollector := .ok (some {}) } 0 { currentSlide := some (9, none) }
    { id := 4, type := "plex_now_playing", hasServiceConfig := true } {}
    (Or.inl rfl) rfl rfl rfl rfl rfl

/-- Claim C8: a slide type name that is not a registered key resolves to
None in the registry (no exception), and the scheduler skips such an entry
with a logged warning while the remaining slides of the pass are processed
exactly as they would be without it. -/
theorem c8_unknown_type_skipped_pass_continues :
    (∀ name : String, (registryTypes.map Prod.fst).contains name = false →
      registryGet name = none) ∧
    (∀ (io : Slide → SlideIO) (now : Nat) (st : SchedState) (u : Slide)
        (rest : List Slide), registryGet u.type = none →
      runPass io now st (u :: rest) =
        ((runPass io now st rest).1,
         Event.skippedUnknown u.type :: (runPass io now st rest).2.1,
         (runPass io now st rest).2.2)) := by
  constructor
  · intro name h
    unfold registryGet
    rw [h]
    simp
  · intro io now st u rest h
    rcases hr : runPass io now st rest with ⟨st2, evs2, err⟩
    simp [runPass, processSlide, h, hr]

/-- Witness for the C8 theorem: the name bogus is unregistered, resolves to
None, and a pass over a bogus slide followed by a clock slide still
processes the clock slide. -/
theorem c8_unknown_type_skipped_pass_continues_witness :
    registryGet "bogus" = none ∧
    runPass (fun _ => {}) 0 {}
        [{ id := 1, type := "bogus" }, { id := 2, type := "clock" }] =
      ((runPass (fun _ => {}) 0 {} [{ id := 2, type := "clock" }]).1,
       Event.skippedUnknown "bogus" ::
         (runPass (fun _ => {}) 0 {} [{ id := 2, type := "clock" }]).2.1,
       (runPass (fun _ => {}) 0 {} [{ id := 2, type := "clock" }]).2.2) :=
  ⟨c8_unknown_type_skipped_pass_continues.1 "bogus" (by decide),
   c8_unknown_type_skipped_pass_continues.2 (fun _ => {}) 0 {}
     { id := 1, type := "bogus" } [{ id := 2, type := "clock" }]
     (c8_unknown_type_skipped_pass_continues.1 "bogus" (by decide))⟩

/-- Claim C9: the pass visits slides in ascending order of the order key
(dict default 0): the sorted list is pairwise ascending in that key, is a
permutation of the input, and the sort is stable (any sublist of the input
whose members carry equal order keys survives as a sublist of the output,
keeping insertion order); on the example input with orders 2, 0, 1 the
visit order is the slides with orders 0, 1, 2. -/
theorem c9_pass_order_sorted_stable :
    (∀ slides : List Slide, List.Pairwise
      (fun a b => a.order.getD 0 ≤ b.order.getD 0) (sortSlides slides)) ∧
    (∀ slides : List Slide, (sortSlides slides).Perm slides) ∧
    (∀ (c slides : List Slide),
      List.Pairwise (fun a b => a.order.getD 0 = b.order.getD 0) c →
      c.Sublist slides → c.Sublist (sortSlides slides)) ∧
    (sortSlides [{ id := 1, type := "clock", order := some 2 },
                 { id := 2, type := "clock", order := some 0 },
                 { id := 3, type := "clock", order := some 1 }]).map
        (fun s => s.order.getD 0) = [0, 1, 2] := by
  refine ⟨?_, ?_, ?_, by decide⟩
  · intro slides
    exact List.sorted_insertionSort slideOrderLe slides
  · intro slides
    exact List.perm_insertionSort slideOrderLe slides
  · intro c slides hpw hsub
    exact List.sublist_insertionSort
      (hpw.imp (fun h => le_of_eq h)) hsub

/-- Witness for the C9 theorem: two equal-order slides keep their insertion
order among a third slide that sorts before them. -/
theorem c9_pass_order_sorted_stable_witness :
    [({ id := 1, type := "clock", order := some 5 } : Slide),
     { id := 2, type := "clock", order := some 5 }].Sublist
      (sortSlides [{ id := 1, type := "clock", order := some 5 },
                   { id := 9, type := "clock", order := some 3 },
                   { id := 2, type := "clock", order := some 5 }]) :=
  c9_pass_order_sorted_stable.2.2.1
    [{ id := 1, type := "clock", order := some 5 },
     { id := 2, type := "clock", order := some 5 }]
    [{ id := 1, type := "clock", order := some 5 },
     { id := 9, type := "clock", order := some 3 },
     { id := 2, type := "clock", order := some 5 }]
    (by decide) (by decide)

/-- Claim C10: skipping a slide because its type is unregistered leaves the
scheduler state, and so the shared CurrentSlide record, exactly as it was
(the previous slide's record stays published), whereas the
conditional-skip path of a conditional slide overwrites CurrentSlide with
None. -/
theorem c10_unknown_skip_keeps_previous_current_slide
    (io io2 : SlideIO) (now : Nat) (st : SchedState) (s s2 : Slide)
    (hreg : registryGet s.type = none)
    (hty : s2.type = "plex_now_playing")
    (hcond : s2.conditional.getD true = true)
    (hsvc : s2.hasServiceConfig = false) :
    processSlide io now st s = .ok st [.skippedUnknown s.type] ∧
    processSlide io2 now st s2 =
      .ok { st with currentSlide := none } [.publishedNone s2.id] := by
  constructor
  · simp [processSlide, hreg]
  · have hreg2 : registryGet s2.type = some plexSlideType := by rw [hty]; rfl
    simp [processSlide, hreg2, hsvc, plexSlideType, hcond]

/-- Witness for the C10 theorem: with a previous slide still published, an
unknown-type skip preserves it while a conditional skip clears it. -/
theorem c10_unknown_skip_keeps_previous_current_slide_witness :
    processSlide {} 0 { currentSlide := some (9, some [("x", 1)]) }
        { id := 5, type := "mystery" } =
      .ok { currentSlide := some (9, some [("x", 1)]) }
        [.skippedUnknown "mystery"] ∧
    processSlide {} 0 { currentSlide := some (9, some [("x", 1)]) }
        { id := 6, type := "plex_now_playing" } =
      .ok { currentSlide := none } [.publishedNone 6] :=
  c10_unknown_skip_keeps_previous_current_slide {} {} 0
    { currentSlide := some (9, some [("x", 1)]) } { id := 5, type := "mystery" }
    { id := 6, type := "plex_now_playing" } rfl rfl rfl rfl

end CrtHud
